import Mathlib

/-!
Shallow embedding of the energy-conservation simulation (src/script.js):
the mutable `state` object becomes the `SimState` record (together with the
module-level `simRunning` / `dragging` flags), and each state-mutating
function of the script becomes a Lean function from states to states.
JavaScript numbers are modelled as real numbers; the JS truthiness test
`!state.initialTotalEnergy` on a number is modelled as equality with 0.
-/

namespace EnergyConservation

/-- The module-level `state` object of src/script.js together with the
`simRunning` and `dragging` globals. -/
@[ext]
structure SimState where
  x : ℝ
  y : ℝ
  v : ℝ
  mass : ℝ
  gravity : ℝ
  friction : ℝ
  thermalEnergy : ℝ
  initialTotalEnergy : ℝ
  trackScale : ℝ
  pixelsPerMeter : ℝ
  simRunning : Bool
  dragging : Bool

/-- The per-frame energy readout computed by `updateCharts`
(lines 160-204): potential, kinetic, thermal, total, and the
normalization denominator `maxE`. -/
@[ext]
structure EnergyReport where
  pe : ℝ
  ke : ℝ
  thermal : ℝ
  total : ℝ
  maxE : ℝ

/-- Constant `scaleE = 0.0005` (line 162). -/
noncomputable def scaleE : ℝ := 0.0005

/-- Function `updatePositionFromX` (lines 56-58): `state.y = state.trackScale * state.x * state.x`. -/
noncomputable def updatePositionFromX (st : SimState) : SimState :=
  { st with y := st.trackScale * st.x * st.x }

/-- Function `updatePhysics(dt)` (lines 93-124): one integration sub-step. -/
noncomputable def updatePhysics (st : SimState) (dt : ℝ) : SimState :=
  let slope := 2 * st.trackScale * st.x
  let g := st.gravity * 20
  let sinTheta := slope / Real.sqrt (1 + slope * slope)
  let aGrav := -g * sinTheta
  let aT := if st.friction > 0 then aGrav + (-st.friction * st.v) else aGrav
  let vNew := st.v + aT * dt
  let cosTheta := 1 / Real.sqrt (1 + slope * slope)
  let xNew := st.x + vNew * cosTheta * dt
  updatePositionFromX { st with v := vNew, x := xNew }

/-- Function `updateCharts()` (lines 160-204): lazy baseline capture, drag-time
baseline rebasing, residual thermal with clamp, total, and the
normalization denominator.  Returns the updated state and the report. -/
noncomputable def updateCharts (st : SimState) : SimState × EnergyReport :=
  let g := st.gravity * 20
  let pe := st.mass * g * st.y * scaleE
  let ke := 0.5 * st.mass * st.v * st.v * scaleE
  let st1 := if st.initialTotalEnergy = 0 ∧ pe + ke > 0 then
      { st with initialTotalEnergy := pe + ke }
    else st
  let st2 := if st1.dragging then
      { st1 with initialTotalEnergy := pe + ke, thermalEnergy := 0 }
    else st1
  let thermal := if st2.initialTotalEnergy ≠ 0 then
      (let t := st2.initialTotalEnergy - (pe + ke)
       if t < 0 then 0 else t)
    else 0
  let total := pe + ke + thermal
  let maxE := max total 10
  (st2, { pe := pe, ke := ke, thermal := thermal, total := total, maxE := maxE })

/-- Function `resetSimulation()` (lines 41-54), with the DOM inputs
(`toggleFriction.checked`, `sliderFriction.value`, `sliderGravity.value`)
passed as parameters.  `draw()` does not touch the state; the trailing
`updateCharts()` call does. -/
noncomputable def resetSimulation (toggleFrictionChecked : Bool)
    (sliderFrictionValue sliderGravityValue : ℝ) (st : SimState) :
    SimState × EnergyReport :=
  let st1 := { st with
    x := -100
    v := 0
    thermalEnergy := 0
    initialTotalEnergy := 0
    friction := if toggleFrictionChecked then sliderFrictionValue else 0
    gravity := sliderGravityValue }
  let st2 := updatePositionFromX st1
  let st3 := { st2 with simRunning := false }
  updateCharts st3

/-- The for-loop of `loop` (lines 83-85): `n` successive `updatePhysics(subDt)` calls. -/
noncomputable def physicsSubSteps : Nat → SimState → ℝ → SimState
  | 0, st, _ => st
  | n + 1, st, subDt => physicsSubSteps n (updatePhysics st subDt) subDt

/-- Function `loop(timestamp)` (lines 72-91), with the elapsed wall-clock time
`rawDt = (timestamp - lastTime) / 1000` passed as a parameter: clamp to
0.1 s, run 10 sub-steps only when running and not dragging, then always
recompute the charts. -/
noncomputable def loop (st : SimState) (rawDt : ℝ) : SimState × EnergyReport :=
  let dt := if rawDt > 0.1 then 0.1 else rawDt
  let st9 := if st.simRunning && !st.dragging then
      physicsSubSteps 10 st (dt / 10)
    else st
  updateCharts st9

/-- Function `startDrag(e)` (lines 214-235), with the canvas size and pointer
position passed as parameters (`Math.hypot` is the Euclidean distance). -/
noncomputable def startDrag (st : SimState) (width height mouseX mouseY : ℝ) :
    SimState :=
  let centerX := width / 2
  let bottomY := height - 50
  let ballX := centerX + st.x
  let ballY := bottomY - st.y
  let dist := Real.sqrt ((mouseX - ballX) * (mouseX - ballX) +
    (mouseY - ballY) * (mouseY - ballY))
  if dist < 40 then { st with dragging := true, simRunning := false, v := 0 }
  else st

/-- Function `drag(e)` (lines 237-255), with the canvas width and pointer x
position passed as parameters: early return when not dragging, otherwise
set `x` from the pointer, recompute `y`, zero the thermal/baseline fields,
and run `updateCharts` (whose state mutation is the part kept here). -/
noncomputable def drag (st : SimState) (width mouseX : ℝ) : SimState :=
  if st.dragging = false then st
  else
    let st1 := { st with x := mouseX - width / 2 }
    let st2 := updatePositionFromX st1
    let st3 := { st2 with thermalEnergy := 0, initialTotalEnergy := 0 }
    (updateCharts st3).1

/-- Function `endDrag()` (lines 257-259). -/
def endDrag (st : SimState) : SimState := { st with dragging := false }

/-- The potential energy `pe` computed at line 165. -/
noncomputable def peOf (st : SimState) : ℝ :=
  st.mass * (st.gravity * 20) * st.y * scaleE

/-- The kinetic energy `ke` computed at line 166. -/
noncomputable def keOf (st : SimState) : ℝ :=
  0.5 * st.mass * st.v * st.v * scaleE

/-! ### Characterization lemmas for `updateCharts` -/

theorem updateCharts_fst_x (st : SimState) : (updateCharts st).1.x = st.x := by
  simp only [updateCharts]; split_ifs <;> rfl

theorem updateCharts_fst_y (st : SimState) : (updateCharts st).1.y = st.y := by
  simp only [updateCharts]; split_ifs <;> rfl

theorem updateCharts_fst_v (st : SimState) : (updateCharts st).1.v = st.v := by
  simp only [updateCharts]; split_ifs <;> rfl

theorem updateCharts_fst_mass (st : SimState) :
    (updateCharts st).1.mass = st.mass := by
  simp only [updateCharts]; split_ifs <;> rfl

theorem updateCharts_fst_gravity (st : SimState) :
    (updateCharts st).1.gravity = st.gravity := by
  simp only [updateCharts]; split_ifs <;> rfl

theorem updateCharts_fst_friction (st : SimState) :
    (updateCharts st).1.friction = st.friction := by
  simp only [updateCharts]; split_ifs <;> rfl

theorem updateCharts_fst_trackScale (st : SimState) :
    (updateCharts st).1.trackScale = st.trackScale := by
  simp only [updateCharts]; split_ifs <;> rfl

theorem updateCharts_fst_pixelsPerMeter (st : SimState) :
    (updateCharts st).1.pixelsPerMeter = st.pixelsPerMeter := by
  simp only [updateCharts]; split_ifs <;> rfl

theorem updateCharts_fst_simRunning (st : SimState) :
    (updateCharts st).1.simRunning = st.simRunning := by
  simp only [updateCharts]; split_ifs <;> rfl

theorem updateCharts_fst_dragging (st : SimState) :
    (updateCharts st).1.dragging = st.dragging := by
  simp only [updateCharts]; split_ifs <;> rfl

theorem updateCharts_fst_initialTotalEnergy (st : SimState) :
    (updateCharts st).1.initialTotalEnergy =
      if st.dragging then peOf st + keOf st
      else if st.initialTotalEnergy = 0 ∧ peOf st + keOf st > 0 then
        peOf st + keOf st
      else st.initialTotalEnergy := by
  simp only [updateCharts, peOf, keOf]
  split_ifs <;> simp_all

theorem updateCharts_fst_thermalEnergy (st : SimState) :
    (updateCharts st).1.thermalEnergy =
      if st.dragging then 0 else st.thermalEnergy := by
  simp only [updateCharts]
  split_ifs <;> simp_all

theorem updateCharts_snd_pe (st : SimState) :
    (updateCharts st).2.pe = peOf st := rfl

theorem updateCharts_snd_ke (st : SimState) :
    (updateCharts st).2.ke = keOf st := rfl

theorem updateCharts_snd_thermal (st : SimState) :
    (updateCharts st).2.thermal =
      if (updateCharts st).1.initialTotalEnergy ≠ 0 then
        max 0 ((updateCharts st).1.initialTotalEnergy - (peOf st + keOf st))
      else 0 := by
  simp only [updateCharts, peOf, keOf]
  split_ifs with h1 h2 h3 <;>
    first
      | rfl
      | (rename_i hlt
         exact (max_eq_left hlt.le).symm)
      | (rename_i hlt
         exact (max_eq_right (not_lt.1 hlt)).symm)

theorem updateCharts_snd_total (st : SimState) :
    (updateCharts st).2.total =
      (updateCharts st).2.pe + (updateCharts st).2.ke +
        (updateCharts st).2.thermal := rfl

theorem updateCharts_snd_maxE (st : SimState) :
    (updateCharts st).2.maxE = max (updateCharts st).2.total 10 := rfl

/-- The initial value of the `state` object (lines 27-38) together with
`simRunning = false`, `dragging = false` (lines 24-25). -/
noncomputable def st0 : SimState where
  x := 0
  y := 0
  v := 0
  mass := 1
  gravity := 9.8
  friction := 0
  thermalEnergy := 0
  initialTotalEnergy := 0
  trackScale := 0.005
  pixelsPerMeter := 100
  simRunning := false
  dragging := false

/-- C3: one `updatePhysics` sub-step of length `dt` computes
`slope = 2*k*x`, `sinTheta = slope/sqrt(1+slope^2)`,
`cosTheta = 1/sqrt(1+slope^2)`, tangential acceleration
`a = -(gravity*20)*sinTheta`, adds `-friction*v` exactly when
`friction > 0`, updates the velocity first (`v + a*dt`), then the
position with the updated velocity (`x + vNew*cosTheta*dt`), and finally
recomputes `y = trackScale * xNew^2`. -/
theorem c3_integrator_substep (st : SimState) (dt : ℝ) :
    updatePhysics st dt =
      (let slope := 2 * st.trackScale * st.x
       let sinTheta := slope / Real.sqrt (1 + slope ^ 2)
       let cosTheta := 1 / Real.sqrt (1 + slope ^ 2)
       let a := -(st.gravity * 20) * sinTheta +
         (if st.friction > 0 then -st.friction * st.v else 0)
       let vNew := st.v + a * dt
       let xNew := st.x + vNew * cosTheta * dt
       { st with v := vNew, x := xNew, y := st.trackScale * xNew ^ 2 }) := by
  by_cases h : st.friction > 0 <;>
    simp only [updatePhysics, updatePositionFromX, h, if_true, if_false] <;>
    (ext <;> simp <;> (try ring_nf) <;> (try tauto))

/-- C10: the integrator step is odd under reflection: one sub-step applied
to `(-x, -v)` yields the negation of the sub-step applied to `(x, v)`
with the same `y`, for every `dt`, gravity, friction and curvature, and
`(x, v) = (0, 0)` is a fixed point of the integrator. -/
theorem c10_integrator_odd_symmetry (st : SimState) (dt : ℝ) :
    (updatePhysics { st with x := -st.x, v := -st.v } dt).x =
      -(updatePhysics st dt).x ∧
    (updatePhysics { st with x := -st.x, v := -st.v } dt).v =
      -(updatePhysics st dt).v ∧
    (updatePhysics { st with x := -st.x, v := -st.v } dt).y =
      (updatePhysics st dt).y ∧
    (updatePhysics { st with x := 0, v := 0 } dt).x = 0 ∧
    (updatePhysics { st with x := 0, v := 0 } dt).v = 0 := by
  by_cases h : st.friction > 0 <;>
    simp only [updatePhysics, updatePositionFromX, h, if_true, if_false] <;>
    refine ⟨?_, ?_, ?_, ?_, ?_⟩ <;> simp <;> (try ring_nf)

/-- For reals, `b + max 0 (a - b) = max a b`. -/
theorem add_max_zero_sub (a b : ℝ) : b + max 0 (a - b) = max a b := by
  rcases le_total a b with h | h
  · rw [max_eq_left (sub_nonpos.2 h), add_zero, max_eq_right h]
  · rw [max_eq_right (sub_nonneg.2 h), max_eq_left h]; ring

/-- A state with a captured (nonzero) baseline smaller than the current
potential+kinetic sum: `pe + ke = 4.9` at `x = -100` but
`initialTotalEnergy = 1`. -/
noncomputable def stC1 : SimState :=
  { st0 with x := -100, y := 50, initialTotalEnergy := 1 }

/-- C1 is false as stated: at `stC1` a baseline is captured
(`initialTotalEnergy = 1 ≠ 0`) and the user is not dragging, yet the
report total is `4.9`, not the baseline `1` (the clamp discards the
negative residual instead of balancing the identity). -/
theorem c1_counterexample :
    stC1.initialTotalEnergy ≠ 0 ∧ stC1.dragging = false ∧
    (updateCharts stC1).2.total ≠ stC1.initialTotalEnergy := by
  refine ⟨by norm_num [stC1, st0], rfl, ?_⟩
  simp only [updateCharts, stC1, st0, scaleE]
  norm_num

/-- C1 (amended): with a baseline captured (`initialTotalEnergy ≠ 0`) and
not dragging, the report satisfies `total = pe + ke + thermal` and
`thermal = max 0 (initialTotalEnergy - (pe + ke))`, hence
`total = max initialTotalEnergy (pe + ke)`; the total equals the baseline
exactly on states where `pe + ke ≤ initialTotalEnergy`. -/
theorem c1_amended_conservation_identity (st : SimState)
    (hset : st.initialTotalEnergy ≠ 0) (hdrag : st.dragging = false) :
    (updateCharts st).2.total =
      (updateCharts st).2.pe + (updateCharts st).2.ke +
        (updateCharts st).2.thermal ∧
    (updateCharts st).2.thermal =
      max 0 (st.initialTotalEnergy -
        ((updateCharts st).2.pe + (updateCharts st).2.ke)) ∧
    (updateCharts st).2.total =
      max st.initialTotalEnergy
        ((updateCharts st).2.pe + (updateCharts st).2.ke) ∧
    ((updateCharts st).2.pe + (updateCharts st).2.ke ≤
        st.initialTotalEnergy →
      (updateCharts st).2.total = st.initialTotalEnergy) := by
  have hinit : (updateCharts st).1.initialTotalEnergy =
      st.initialTotalEnergy := by
    rw [updateCharts_fst_initialTotalEnergy, hdrag]
    simp [hset]
  have hth : (updateCharts st).2.thermal =
      max 0 (st.initialTotalEnergy - (peOf st + keOf st)) := by
    rw [updateCharts_snd_thermal, hinit]
    simp [hset]
  have htot : (updateCharts st).2.total =
      max st.initialTotalEnergy (peOf st + keOf st) := by
    rw [updateCharts_snd_total, updateCharts_snd_pe, updateCharts_snd_ke,
      hth, add_max_zero_sub]
  refine ⟨updateCharts_snd_total st, ?_, ?_, ?_⟩
  · rw [hth, updateCharts_snd_pe, updateCharts_snd_ke]
  · rw [htot, updateCharts_snd_pe, updateCharts_snd_ke]
  · intro hle
    rw [updateCharts_snd_pe, updateCharts_snd_ke] at hle
    rw [htot, max_eq_left hle]

/-- A state with a captured baseline (`10`) at `x = -100` with `v = 0`,
so that `pe + ke = 4.9 ≤ 10`. -/
noncomputable def stC1W : SimState :=
  { st0 with x := -100, y := 50, initialTotalEnergy := 10 }

/-- Witness for the amended C1 at the concrete state `stC1W`. -/
theorem c1_amended_conservation_identity_witness :
    (updateCharts stC1W).2.total = stC1W.initialTotalEnergy :=
  (c1_amended_conservation_identity stC1W (by norm_num [stC1W, st0])
    rfl).2.2.2
    (by
      rw [updateCharts_snd_pe, updateCharts_snd_ke]
      simp only [peOf, keOf, stC1W, st0, scaleE]
      norm_num)

/-- A state whose baseline field holds the numeric value `0` while the
current reading is positive (`pe + ke = 4.9` at `x = -100`). -/
noncomputable def stC2 : SimState := { st0 with x := -100, y := 50 }

/-- C2 is false as stated: the code's "no baseline captured" condition is
exactly `initialTotalEnergy = 0`, so at `stC2` — whose baseline field is
the numeric value zero — the lazy capture does retrigger: `updateCharts`
replaces the zero baseline with `pe + ke = 4.9 ≠ 0`. -/
theorem c2_counterexample :
    stC2.initialTotalEnergy = 0 ∧ stC2.dragging = false ∧
    (updateCharts stC2).2.pe + (updateCharts stC2).2.ke > 0 ∧
    (updateCharts stC2).1.initialTotalEnergy =
      (updateCharts stC2).2.pe + (updateCharts stC2).2.ke ∧
    (updateCharts stC2).1.initialTotalEnergy ≠ stC2.initialTotalEnergy := by
  refine ⟨rfl, rfl, ?_, ?_, ?_⟩ <;>
    simp only [updateCharts, stC2, st0, scaleE] <;> norm_num

/-- C2 (amended): the code represents the unset baseline as the numeric
value `0`: when not dragging, the baseline after `updateCharts` is
`pe + ke` exactly when the stored baseline equals `0` and the reading is
positive, and is unchanged otherwise; in particular a momentarily-zero
reading never triggers capture, but a stored baseline of `0` is
indistinguishable from unset and does retrigger capture. -/
theorem c2_amended_zero_is_unset (st : SimState)
    (hdrag : st.dragging = false) :
    (updateCharts st).1.initialTotalEnergy =
      (if st.initialTotalEnergy = 0 ∧ peOf st + keOf st > 0 then
        peOf st + keOf st
      else st.initialTotalEnergy) ∧
    (peOf st + keOf st = 0 →
      (updateCharts st).1.initialTotalEnergy = st.initialTotalEnergy) := by
  have h := updateCharts_fst_initialTotalEnergy st
  rw [hdrag] at h
  simp only [Bool.false_eq_true, if_false] at h
  refine ⟨h, fun hzero => ?_⟩
  rw [h, hzero]
  simp

/-- Witness for the amended C2 at the concrete state `stC2`. -/
theorem c2_amended_zero_is_unset_witness :
    (updateCharts stC2).1.initialTotalEnergy =
      (if stC2.initialTotalEnergy = 0 ∧ peOf stC2 + keOf stC2 > 0 then
        peOf stC2 + keOf stC2
      else stC2.initialTotalEnergy) :=
  (c2_amended_zero_is_unset stC2 rfl).1

/-- C4: the thermal energy reported by `updateCharts` is never negative:
the residual is clamped to zero for every state (hence for every
reachable state). -/
theorem c4_thermal_nonneg (st : SimState) : 0 ≤ (updateCharts st).2.thermal := by
  rw [updateCharts_snd_thermal]
  split_ifs
  · exact le_max_left _ _
  · exact le_refl 0

/-- C9: the normalization denominator of the energy bars is
`max total 10`, which is at least `10` and in particular never zero. -/
theorem c9_normalization_denominator (st : SimState) :
    (updateCharts st).2.maxE = max (updateCharts st).2.total 10 ∧
    10 ≤ (updateCharts st).2.maxE ∧ (updateCharts st).2.maxE ≠ 0 := by
  refine ⟨rfl, le_max_right _ _, ?_⟩
  have h : (10:ℝ) ≤ (updateCharts st).2.maxE := le_max_right _ _
  exact (lt_of_lt_of_le (by norm_num) h).ne'

/-- C5: each frame clamps the elapsed wall-clock time at `0.1` s, so the
sub-step size `dt / 10` is at most `0.01` s; the ten `updatePhysics`
sub-steps run exactly when `simRunning` is set and the user is not
dragging (the Running state), while `updateCharts` is recomputed every
frame regardless of run state. -/
theorem c5_frame_loop (st : SimState) (rawDt : ℝ) :
    (if rawDt > 0.1 then (0.1:ℝ) else rawDt) ≤ 0.1 ∧
    (if rawDt > 0.1 then (0.1:ℝ) else rawDt) / 10 ≤ 0.01 ∧
    (st.simRunning = true ∧ st.dragging = false →
      loop st rawDt =
        updateCharts (physicsSubSteps 10 st
          ((if rawDt > 0.1 then (0.1:ℝ) else rawDt) / 10))) ∧
    (st.simRunning = false ∨ st.dragging = true →
      loop st rawDt = updateCharts st) := by
  have hdt : (if rawDt > 0.1 then (0.1:ℝ) else rawDt) ≤ 0.1 := by
    split_ifs with hgt
    · exact le_refl _
    · exact le_of_not_lt hgt
  refine ⟨hdt, by linarith, ?_, ?_⟩
  · rintro ⟨h1, h2⟩
    simp only [loop, h1, h2, Bool.not_false, Bool.and_self, if_true]
  · intro hcase
    simp only [loop]
    rcases hcase with hcase | hcase <;> simp [hcase]

/-- The initial state with the simulation started. -/
noncomputable def stRun : SimState := { st0 with simRunning := true }

/-- Witness for C5: one running frame at `rawDt = 0.2` performs the ten
sub-steps before the chart update, and one idle frame only updates the
charts. -/
theorem c5_frame_loop_witness :
    loop stRun 0.2 =
      updateCharts (physicsSubSteps 10 stRun
        ((if (0.2:ℝ) > 0.1 then (0.1:ℝ) else 0.2) / 10)) ∧
    loop st0 0.2 = updateCharts st0 :=
  ⟨(c5_frame_loop stRun 0.2).2.2.1 ⟨rfl, rfl⟩,
   (c5_frame_loop st0 0.2).2.2.2 (Or.inl rfl)⟩

/-- A state with a nonzero captured baseline and the ball at the bottom
of the track. -/
noncomputable def stC6 : SimState := { st0 with initialTotalEnergy := 5 }

/-- C6 is false as stated: grabbing the mass dead-center (distance `0`,
within the 40 px radius) does enter `Dragging` and zero the velocity,
but `startDrag` leaves `initialTotalEnergy` at its old nonzero value `5`
instead of invalidating it to the unset state. -/
theorem c6_counterexample :
    (startDrag stC6 800 600 400 550).dragging = true ∧
    (startDrag stC6 800 600 400 550).v = 0 ∧
    (startDrag stC6 800 600 400 550).initialTotalEnergy = 5 ∧
    (5:ℝ) ≠ 0 := by
  refine ⟨?_, ?_, ?_, by norm_num⟩ <;>
    (simp only [startDrag, stC6, st0]
     norm_num [Real.sqrt_zero])

/-- C6 (amended): a grab landing strictly within 40 px of the rendered
mass center enters `Dragging`, stops the run, and zeroes the velocity,
leaving every other field — including the energy baseline — unchanged;
while dragging, each `updateCharts` call rebases the baseline to the
current `pe + ke` (instead of leaving it unset), zeroes the stored
thermal energy, and reports zero thermal. -/
theorem c6_amended_grab_and_drag_baseline (stA stB : SimState)
    (w hgt mx my : ℝ)
    (hdist : Real.sqrt ((mx - (w / 2 + stA.x)) * (mx - (w / 2 + stA.x)) +
      (my - (hgt - 50 - stA.y)) * (my - (hgt - 50 - stA.y))) < 40)
    (hdrag : stB.dragging = true) :
    startDrag stA w hgt mx my =
      { stA with dragging := true, simRunning := false, v := 0 } ∧
    (updateCharts stB).1.initialTotalEnergy = peOf stB + keOf stB ∧
    (updateCharts stB).1.thermalEnergy = 0 ∧
    (updateCharts stB).2.thermal = 0 := by
  have h2 : (updateCharts stB).1.initialTotalEnergy = peOf stB + keOf stB := by
    rw [updateCharts_fst_initialTotalEnergy, hdrag]
    simp
  refine ⟨?_, h2, ?_, ?_⟩
  · simp only [startDrag]
    rw [if_pos hdist]
  · rw [updateCharts_fst_thermalEnergy, hdrag]
    simp
  · rw [updateCharts_snd_thermal, h2]
    split_ifs
    · simp
    · rfl

/-- A state where the user is actively dragging. -/
noncomputable def stDrag : SimState := { st0 with dragging := true }

/-- Witness for the amended C6: the dead-center grab on `stC6`, and one
dragging chart update on `stDrag`. -/
theorem c6_amended_grab_and_drag_baseline_witness :
    startDrag stC6 800 600 400 550 =
      { stC6 with dragging := true, simRunning := false, v := 0 } ∧
    (updateCharts stDrag).1.initialTotalEnergy = peOf stDrag + keOf stDrag :=
  ⟨(c6_amended_grab_and_drag_baseline stC6 stDrag 800 600 400 550
      (by
        simp only [stC6, st0]
        norm_num [Real.sqrt_zero]) rfl).1,
   (c6_amended_grab_and_drag_baseline stC6 stDrag 800 600 400 550
      (by
        simp only [stC6, st0]
        norm_num [Real.sqrt_zero]) rfl).2.1⟩

/-- The state passed to the `updateCharts` call at the end of `drag`
(lines 245-254): `x` from the pointer, `y` recomputed, thermal and
baseline zeroed. -/
noncomputable def dragCore (st : SimState) (width mouseX : ℝ) : SimState :=
  { st with
    x := mouseX - width / 2
    y := st.trackScale * (mouseX - width / 2) * (mouseX - width / 2)
    thermalEnergy := 0
    initialTotalEnergy := 0 }

/-- On a dragging state, `drag` is the chart update of `dragCore`. -/
theorem drag_eq_of_dragging (st : SimState) (w mx : ℝ)
    (hd : st.dragging = true) :
    drag st w mx = (updateCharts (dragCore st w mx)).1 := by
  simp [drag, updatePositionFromX, dragCore, hd]

/-- The state passed to the `updateCharts` call at the end of
`resetSimulation` (lines 42-53): start position, zero velocity, cleared
thermal/baseline, parameters from the controls, run stopped. -/
noncomputable def resetCore (toggleFrictionChecked : Bool)
    (sliderFrictionValue sliderGravityValue : ℝ) (st : SimState) : SimState :=
  { st with
    x := -100
    v := 0
    thermalEnergy := 0
    initialTotalEnergy := 0
    friction := if toggleFrictionChecked then sliderFrictionValue else 0
    gravity := sliderGravityValue
    y := st.trackScale * (-100 : ℝ) * (-100 : ℝ)
    simRunning := false }

/-- Unfolding: `resetSimulation` is the chart update of `resetCore`. -/
theorem resetSimulation_eq (tog : Bool) (sf sg : ℝ) (st : SimState) :
    resetSimulation tog sf sg st = updateCharts (resetCore tog sf sg st) :=
  rfl

/-- C7: `y = trackScale * x^2` is re-established by every operation that
changes `x`: an integration sub-step, a drag move, and a reset all end
with `y` recomputed from `x`; and the operations that do not change `x`
(`startDrag` and `updateCharts`) preserve the invariant. -/
theorem c7_y_pure_function_of_x (st stB : SimState)
    (dt w hgt mx my sf sg : ℝ) (tog : Bool) (hdragB : stB.dragging = true) :
    (updatePhysics st dt).y =
      (updatePhysics st dt).trackScale *
        (updatePhysics st dt).x * (updatePhysics st dt).x ∧
    (drag stB w mx).y =
      (drag stB w mx).trackScale * (drag stB w mx).x * (drag stB w mx).x ∧
    ((resetSimulation tog sf sg st).1).y =
      ((resetSimulation tog sf sg st).1).trackScale *
        ((resetSimulation tog sf sg st).1).x *
        ((resetSimulation tog sf sg st).1).x ∧
    (st.y = st.trackScale * st.x * st.x →
      ((startDrag st w hgt mx my).y =
        (startDrag st w hgt mx my).trackScale *
          (startDrag st w hgt mx my).x * (startDrag st w hgt mx my).x) ∧
      ((updateCharts st).1.y =
        (updateCharts st).1.trackScale *
          (updateCharts st).1.x * (updateCharts st).1.x)) := by
  refine ⟨rfl, ?_, ?_, ?_⟩
  · rw [drag_eq_of_dragging stB w mx hdragB, updateCharts_fst_y,
      updateCharts_fst_trackScale, updateCharts_fst_x]
    rfl
  · rw [resetSimulation_eq, updateCharts_fst_y,
      updateCharts_fst_trackScale, updateCharts_fst_x]
    rfl
  · intro hy
    constructor
    · simp only [startDrag]
      split_ifs <;> exact hy
    · rw [updateCharts_fst_y, updateCharts_fst_trackScale,
        updateCharts_fst_x]
      exact hy

/-- Witness for C7: the invariant-preservation conjuncts applied to the
initial state, whose `y` is `trackScale * x^2` by evaluation. -/
theorem c7_y_pure_function_of_x_witness :
    (startDrag st0 800 600 400 550).y =
      (startDrag st0 800 600 400 550).trackScale *
        (startDrag st0 800 600 400 550).x * (startDrag st0 800 600 400 550).x ∧
    (updateCharts st0).1.y =
      (updateCharts st0).1.trackScale *
        (updateCharts st0).1.x * (updateCharts st0).1.x :=
  (c7_y_pure_function_of_x st0 stDrag 1 800 600 400 550 0.02 9.8 false
    rfl).2.2.2 (by norm_num [st0])

/-- Congruence: `resetSimulation` depends only on the `mass`, `trackScale`,
`pixelsPerMeter` and `dragging` fields of its input state. -/
theorem resetSimulation_congr (tog : Bool) (sf sg : ℝ) (s1 s2 : SimState)
    (hm : s1.mass = s2.mass) (hts : s1.trackScale = s2.trackScale)
    (hppm : s1.pixelsPerMeter = s2.pixelsPerMeter)
    (hd : s1.dragging = s2.dragging) :
    resetSimulation tog sf sg s1 = resetSimulation tog sf sg s2 := by
  simp only [resetSimulation, updatePositionFromX]
  rw [hm, hts, hppm, hd]

/-- C8 is false as stated: immediately after `resetSimulation` on the
initial state, the energy baseline is not cleared — the `updateCharts`
call inside reset recaptures it as the start position's potential energy
`4.9`. -/
theorem c8_counterexample :
    ((resetSimulation false 0.02 9.8 st0).1).initialTotalEnergy = 4.9 ∧
    (4.9:ℝ) ≠ 0 := by
  constructor
  · simp only [resetSimulation, updatePositionFromX, updateCharts, st0,
      scaleE]
    norm_num
  · norm_num

/-- C8 (amended): `resetSimulation` is idempotent — a second reset with
the same control inputs reproduces the state and report of the first —
and the post-reset state has `x = -100`, `v = 0`, zero stored thermal
energy and `simRunning = false`; the baseline, however, is not left
unset: when not dragging and the start potential energy is positive, the
ledger call inside reset immediately recaptures a nonzero baseline. -/
theorem c8_amended_reset_idempotent (st : SimState) (tog : Bool)
    (sf sg : ℝ) :
    resetSimulation tog sf sg ((resetSimulation tog sf sg st).1) =
      resetSimulation tog sf sg st ∧
    ((resetSimulation tog sf sg st).1).x = -100 ∧
    ((resetSimulation tog sf sg st).1).v = 0 ∧
    ((resetSimulation tog sf sg st).1).thermalEnergy = 0 ∧
    ((resetSimulation tog sf sg st).1).simRunning = false ∧
    (st.dragging = false → 0 < st.mass * sg * st.trackScale →
      ((resetSimulation tog sf sg st).1).initialTotalEnergy ≠ 0) := by
  have hreset := resetSimulation_eq tog sf sg st
  refine ⟨?_, ?_, ?_, ?_, ?_, ?_⟩
  · refine resetSimulation_congr tog sf sg _ _ ?_ ?_ ?_ ?_
    · rw [hreset, updateCharts_fst_mass]
      rfl
    · rw [hreset, updateCharts_fst_trackScale]
      rfl
    · rw [hreset, updateCharts_fst_pixelsPerMeter]
      rfl
    · rw [hreset, updateCharts_fst_dragging]
      rfl
  · rw [hreset, updateCharts_fst_x]
    rfl
  · rw [hreset, updateCharts_fst_v]
    rfl
  · rw [hreset, updateCharts_fst_thermalEnergy]
    split_ifs <;> rfl
  · rw [hreset, updateCharts_fst_simRunning]
    rfl
  · intro hd hpos
    rw [hreset, updateCharts_fst_initialTotalEnergy]
    have hpe : (0:ℝ) < peOf (resetCore tog sf sg st) +
        keOf (resetCore tog sf sg st) := by
      simp only [peOf, keOf, resetCore, scaleE]
      norm_num
      nlinarith [hpos]
    have hdc : (resetCore tog sf sg st).dragging = false := hd
    have hz : (resetCore tog sf sg st).initialTotalEnergy = 0 := rfl
    simp [hdc, hpe, hz]
    exact ne_of_gt hpe

/-- Witness for the amended C8 at the initial state with the default
control inputs. -/
theorem c8_amended_reset_idempotent_witness :
    ((resetSimulation false 0.02 9.8 st0).1).initialTotalEnergy ≠ 0 :=
  (c8_amended_reset_idempotent st0 false 0.02 9.8).2.2.2.2.2 rfl
    (by norm_num [st0])

end EnergyConservation
